import Mathlib

/-!
Verification of the InstaExpand client core: the session state machine in
`App.tsx`, the generation adapter and codec in `services/geminiService.ts`.
The React component state hooks become a `Session` record; each event
handler becomes a pure function on `Session` (asynchronous handlers take
the outcome of their awaited call as an explicit argument).
-/

/-- The `AspectRatio` enum from `types.ts`. -/
inductive AspectRatio where
  | SQUARE
  | PORTRAIT
  | STORY
deriving DecidableEq, Repr

/-- String value of each enum member, as declared in `types.ts`. -/
def AspectRatio.value : AspectRatio → String
  | .SQUARE => "1:1"
  | .PORTRAIT => "3:4"
  | .STORY => "9:16"

/-- The `GenerationStatus` union type from `types.ts`. -/
inductive GenerationStatus where
  | idle
  | generating
  | success
  | error
deriving DecidableEq, Repr

/-- The session state held by the `App` component's `useState` hooks
(`App.tsx`): `apiKeySet`, `originalImage`, `originalImageBase64`,
`generatedImage`, `selectedRatio`, `status`, `errorMsg`. -/
structure Session where
  apiKeySet : Bool
  originalImage : Option String
  originalImageBase64 : Option String
  generatedImage : Option String
  selectedRatio : AspectRatio
  status : GenerationStatus
  errorMsg : Option String
deriving DecidableEq, Repr

/-- The initial hook values in `App.tsx`: key unset, no images, ratio
`PORTRAIT`, status `idle`, no error. -/
def initSession : Session :=
  { apiKeySet := false
    originalImage := none
    originalImageBase64 := none
    generatedImage := none
    selectedRatio := AspectRatio.PORTRAIT
    status := GenerationStatus.idle
    errorMsg := none }

/-- JavaScript `haystack.includes(needle)` on lists of characters:
true iff `needle` occurs contiguously inside `haystack`. -/
def jsIncludesList (haystack needle : List Char) : Bool :=
  match haystack with
  | [] => needle.isEmpty
  | _ :: t => needle.isPrefixOf haystack || jsIncludesList t needle

/-- JavaScript `haystack.includes(needle)` on strings. -/
def jsIncludes (haystack needle : String) : Bool :=
  jsIncludesList haystack.toList needle.toList

/-- `handleImageUpload` from `App.tsx`. `url` is the object URL created
for the file; `enc` is the outcome of the awaited `blobToBase64(file)`
call (`.ok b64` when the read succeeds, `.error ()` when the reader
rejects). The handler first stores the new original image and clears the
generated image and the error, then either stores the new encoding or
reports the processing error. -/
def handleImageUpload (s : Session) (url : String) (enc : Except Unit String) :
    Session :=
  let s1 := { s with
    originalImage := some url
    generatedImage := none
    errorMsg := none }
  match enc with
  | .ok b64 => { s1 with originalImageBase64 := some b64 }
  | .error _ =>
      { s1 with errorMsg := some "Failed to process image. Please try another one." }

/-- `handleClear` from `App.tsx`: clears the original image, the encoding
and the generated image and returns the status to `idle`. -/
def handleClear (s : Session) : Session :=
  { s with
    originalImage := none
    originalImageBase64 := none
    generatedImage := none
    status := GenerationStatus.idle }

/-- The synchronous prefix of `handleGenerate` in `App.tsx`: the guard
`if (!originalImageBase64 || !apiKeySet) return;` followed by
`setStatus('generating'); setErrorMsg(null);`. The boolean of the result
records whether an outbound request to `generateExpandedImage` is issued
by this invocation. -/
def generateStart (s : Session) : Session × Bool :=
  if s.originalImageBase64 = none ∨ s.apiKeySet = false then (s, false)
  else ({ s with status := GenerationStatus.generating, errorMsg := none }, true)

/-- The credential-missing marker text tested by `handleGenerate`. -/
def keyMarker : String := "Requested entity was not found"

/-- The fallback message `"Something went wrong. Please try again."` used
when `err.message` is falsy. -/
def fallbackMsg : String := "Something went wrong. Please try again."

/-- The continuation of `handleGenerate` in `App.tsx` after the awaited
adapter call resolves: on `.ok` store the result and set status
`success`; on `.error msg` set status `error`, store
`err.message || fallback`, and when the message contains the
credential-missing marker, demote `apiKeySet` and overwrite the error
with the key message. The empty string models a falsy `err.message`. -/
def generateResolve (s : Session) (r : Except String String) : Session :=
  match r with
  | .ok img => { s with generatedImage := some img, status := GenerationStatus.success }
  | .error msg =>
      let s1 := { s with
        status := GenerationStatus.error
        errorMsg := some (if msg = "" then fallbackMsg else msg) }
      if msg ≠ "" ∧ jsIncludes msg keyMarker then
        { s1 with
          apiKeySet := false
          errorMsg := some "API Key issue. Please select your key again." }
      else s1

/-- A content part of the remote model's response
(`geminiService.ts`): `inlineData`, when present, carries the base64
data string of an inline image (`part.inlineData.data`). -/
structure ContentPart where
  inlineData : Option String
deriving DecidableEq, Repr

/-- The `content` object of a response candidate. -/
structure Content where
  parts : List ContentPart
deriving DecidableEq, Repr

/-- A response candidate. -/
structure Candidate where
  content : Content
deriving DecidableEq, Repr

/-- The remote model's response: a list of candidates. -/
structure GenResponse where
  candidates : List Candidate
deriving DecidableEq, Repr

/-- `response.candidates?.[0]?.content?.parts || []` from
`generateExpandedImage` in `geminiService.ts`. -/
def responseParts (r : GenResponse) : List ContentPart :=
  match r.candidates.head? with
  | some c => c.content.parts
  | none => []

/-- The extraction loop of `generateExpandedImage` in `geminiService.ts`:
scan the parts in order; at the first part with `inlineData`, return its
data re-encoded as a `data:image/png;base64,` URI; if the loop finds
none, throw `"No image data found in response"`. -/
def extractImage : List ContentPart → Except String String
  | [] => Except.error "No image data found in response"
  | p :: rest =>
      match p.inlineData with
      | some d => Except.ok ("data:image/png;base64," ++ d)
      | none => extractImage rest

/-- `generateExpandedImage` from `geminiService.ts`, given the adapter's
network outcome: a transport-level failure (`.error msg`) is rethrown
unmodified by the catch block; a received response is scanned by the
extraction loop. -/
def generateExpandedImage (outcome : Except String GenResponse) :
    Except String String :=
  match outcome with
  | .error msg => Except.error msg
  | .ok resp => extractImage (responseParts resp)

/-- One whole invocation of `handleGenerate` from `App.tsx`: the guard
and synchronous prefix (`generateStart`), then—only when a request was
issued—the continuation on the adapter's outcome (`generateResolve`).
The `Nat` counts outbound requests issued by this invocation (0 or 1). -/
def handleGenerate (s : Session) (outcome : Except String GenResponse) :
    Session × Nat :=
  if (generateStart s).2 then
    (generateResolve (generateStart s).1 (generateExpandedImage outcome), 1)
  else ((generateStart s).1, 0)

/-- JavaScript `String.prototype.split(sep)` for a one-character
separator, on character lists: the list of segments between occurrences
of `c`. -/
def jsSplit (c : Char) : List Char → List (List Char)
  | [] => [[]]
  | x :: xs =>
      if x = c then [] :: jsSplit c xs
      else
        match jsSplit c xs with
        | [] => [[x]]
        | h :: t => (x :: h) :: t

/-- The standard base64 alphabet. -/
def b64Alphabet : List Char :=
  "ABCDEFGHIJKLMNOPQRSTUVWXYZabcdefghijklmnopqrstuvwxyz0123456789+/".toList

/-- The base64 digit for a sextet value. -/
def b64Char (n : Nat) : Char := b64Alphabet.getD n '?'

/-- The sextet value of a base64 digit. -/
def b64Val (ch : Char) : Nat := b64Alphabet.indexOf ch

/-- Base64 encoding of a byte list (bytes as `Nat < 256`), with `=`
padding, as produced by the browser for `FileReader.readAsDataURL`.
This models the platform primitive the codec in `geminiService.ts`
delegates to. -/
def b64Encode : List Nat → List Char
  | [] => []
  | [a] => [b64Char (a / 4), b64Char (a % 4 * 16), '=', '=']
  | [a, b] => [b64Char (a / 4), b64Char (a % 4 * 16 + b / 16), b64Char (b % 16 * 4), '=']
  | a :: b :: c :: rest =>
      b64Char (a / 4) :: b64Char (a % 4 * 16 + b / 16) ::
      b64Char (b % 16 * 4 + c / 64) :: b64Char (c % 64) :: b64Encode rest

/-- Base64 decoding back to bytes, honouring `=` padding. -/
def b64Decode : List Char → List Nat
  | c1 :: c2 :: c3 :: c4 :: rest =>
      if c3 = '=' then [b64Val c1 * 4 + b64Val c2 / 16]
      else if c4 = '=' then
        [b64Val c1 * 4 + b64Val c2 / 16, b64Val c2 % 16 * 16 + b64Val c3 / 4]
      else
        (b64Val c1 * 4 + b64Val c2 / 16) :: (b64Val c2 % 16 * 16 + b64Val c3 / 4) ::
        (b64Val c3 % 4 * 64 + b64Val c4) :: b64Decode rest
  | _ => []

/-- The string produced by `FileReader.readAsDataURL` for a blob of the
given mime type and bytes: `data:<mime>;base64,<payload>`. This models
the platform primitive used by `blobToBase64` in `geminiService.ts`. -/
def readAsDataURL (mime : List Char) (bytes : List Nat) : List Char :=
  "data:".toList ++ mime ++ ";base64,".toList ++ b64Encode bytes

/-- `blobToBase64` from `geminiService.ts`: read the blob as a data URL
and take `base64String.split(',')[1]`, the segment after the first
comma (JavaScript indexing past the end yields `undefined`, modelled by
the empty default). -/
def blobToBase64 (mime : List Char) (bytes : List Nat) : List Char :=
  (jsSplit ',' (readAsDataURL mime bytes)).getD 1 []

/-- One event on the session: the handlers of `App.tsx` together with
the resolutions of their awaited calls. `genResolve` is allowed from any
state because the continuation of `handleGenerate` runs unconditionally
when the adapter promise settles, even if the session was reset in the
meantime; `keyCheck` is the `useEffect` credential probe resolving;
`discard` is the `setGeneratedImage(null)` click handler of the
"Try Different Ratio" button. -/
inductive SessionStep : Session → Session → Prop
  | upload (s : Session) (url : String) (enc : Except Unit String) :
      SessionStep s (handleImageUpload s url enc)
  | selectRatio (s : Session) (r : AspectRatio) :
      SessionStep s { s with selectedRatio := r }
  | keyCheck (s : Session) (b : Bool) :
      SessionStep s { s with apiKeySet := b }
  | genStart (s : Session) :
      SessionStep s (generateStart s).1
  | genResolve (s : Session) (r : Except String String) :
      SessionStep s (generateResolve s r)
  | reset (s : Session) :
      SessionStep s (handleClear s)
  | discard (s : Session) :
      SessionStep s { s with generatedImage := none }

/-- The session states reachable from the initial hook values by any
sequence of events. -/
inductive ReachableSession : Session → Prop
  | init : ReachableSession initSession
  | step {s s2 : Session} (h1 : ReachableSession s) (h2 : SessionStep s s2) :
      ReachableSession s2

/-- When its guard fails, `generateStart` leaves the session unchanged
and issues no request. -/
theorem generateStart_guard_neg {s : Session}
    (h : s.originalImageBase64 = none ∨ s.apiKeySet = false) :
    generateStart s = (s, false) := by
  unfold generateStart
  rw [if_pos h]

/-- When its guard passes, `generateStart` moves to `generating`, clears
the error, and issues a request. -/
theorem generateStart_guard_pos {s : Session}
    (h1 : s.originalImageBase64 ≠ none) (h2 : s.apiKeySet = true) :
    generateStart s =
      ({ s with status := GenerationStatus.generating, errorMsg := none }, true) := by
  unfold generateStart
  rw [if_neg (by simp [h1, h2])]

/-- `generateResolve` never touches the original image, the encoding or
the selected ratio. -/
theorem generateResolve_frame (s : Session) (r : Except String String) :
    (generateResolve s r).originalImage = s.originalImage ∧
    (generateResolve s r).originalImageBase64 = s.originalImageBase64 ∧
    (generateResolve s r).selectedRatio = s.selectedRatio := by
  cases r with
  | ok img => simp [generateResolve]
  | error msg =>
      unfold generateResolve
      split <;> simp <;> split <;> simp

/-- C4 counterexample: from a reachable `error` state carrying the
message `"boom"`, `reset()` (`handleClear`) yields status `idle` but
does not clear the error message, contradicting the claim that the
error message is cleared. -/
theorem handleClear_keeps_error_cex :
    (handleClear (generateResolve
        (generateStart (handleImageUpload { initSession with apiKeySet := true }
          "u" (Except.ok "B"))).1
        (Except.error "boom"))).status = GenerationStatus.idle ∧
    (handleClear (generateResolve
        (generateStart (handleImageUpload { initSession with apiKeySet := true }
          "u" (Except.ok "B"))).1
        (Except.error "boom"))).errorMsg = some "boom" := by
  constructor <;> rfl

/-- C4 (amended): `reset()` from any state yields status `idle` with the
original image, the encoded image and the generated image cleared, but
it leaves the error message unchanged rather than clearing it. -/
theorem handleClear_spec (s : Session) :
    (handleClear s).status = GenerationStatus.idle ∧
    (handleClear s).originalImage = none ∧
    (handleClear s).originalImageBase64 = none ∧
    (handleClear s).generatedImage = none ∧
    (handleClear s).errorMsg = s.errorMsg := by
  simp [handleClear]

/-- C7: every resolution of a `generate()` attempt — transport error,
credential error, empty-result error, and also success — leaves the
original image, the encoded image and the selected ratio exactly as they
were before the attempt. -/
theorem handleGenerate_frame (s : Session) (outcome : Except String GenResponse) :
    (handleGenerate s outcome).1.originalImage = s.originalImage ∧
    (handleGenerate s outcome).1.originalImageBase64 = s.originalImageBase64 ∧
    (handleGenerate s outcome).1.selectedRatio = s.selectedRatio := by
  unfold handleGenerate
  by_cases h : s.originalImageBase64 = none ∨ s.apiKeySet = false
  · rw [generateStart_guard_neg h]
    simp
  · push_neg at h
    rw [generateStart_guard_pos h.1 (by simpa using h.2)]
    simp only
    have := generateResolve_frame
      { s with status := GenerationStatus.generating, errorMsg := none }
      (generateExpandedImage outcome)
    simpa using this

/-- C8: `upload(file)` always clears the previously generated image, and
the resulting error message never depends on the prior session state: it
is `none` when the encode succeeds and the fixed fresh processing
message when the encode fails. -/
theorem handleImageUpload_clears (s : Session) (url : String)
    (enc : Except Unit String) :
    (handleImageUpload s url enc).generatedImage = none ∧
    (handleImageUpload s url enc).errorMsg =
      (match enc with
       | .ok _ => none
       | .error _ => some "Failed to process image. Please try another one.") := by
  cases enc <;> simp [handleImageUpload]

/-- C10: when the credential flag is false, `generate()` is a silent
no-op — the session is unchanged and no outbound request is issued —
even if an encoded image is present. -/
theorem handleGenerate_no_key (s : Session) (outcome : Except String GenResponse)
    (h : s.apiKeySet = false) :
    handleGenerate s outcome = (s, 0) := by
  unfold handleGenerate
  rw [generateStart_guard_neg (Or.inr h)]
  simp

/-- Witness for C10 at a session that has an encoded image but no
credential. -/
theorem handleGenerate_no_key_witness :
    handleGenerate { initSession with originalImageBase64 := some "B" }
        (Except.error "x") =
      ({ initSession with originalImageBase64 := some "B" }, 0) :=
  handleGenerate_no_key _ _ rfl

/-- C1 counterexample: in a reachable session whose status is
`generating` (encoded image present, credential set), invoking
`generate()` again issues another outbound request, so two invocations
in a row issue two outbound calls, not one. -/
theorem generate_while_generating_cex :
    ((generateStart (handleImageUpload { initSession with apiKeySet := true }
        "u" (Except.ok "B"))).1.status = GenerationStatus.generating) ∧
    ((handleGenerate
        (generateStart (handleImageUpload { initSession with apiKeySet := true }
          "u" (Except.ok "B"))).1
        (Except.error "boom")).2 = 1) ∧
    ((generateStart (handleImageUpload { initSession with apiKeySet := true }
        "u" (Except.ok "B"))).2 = true) := by
  refine ⟨rfl, rfl, rfl⟩

/-- C1 (amended): `generate()` is a no-op (state unchanged, no outbound
request) exactly when the encoded image is absent or the credential flag
is false; it is not guarded by the status, so invoking it while status
is already `generating` (with encoded image present and credential set)
issues a further outbound request. Single-flight is enforced only by the
presentation layer disabling the generate control while generating. -/
theorem handleGenerate_guard (s : Session) (outcome : Except String GenResponse) :
    (handleGenerate s outcome = (s, 0) ↔
      (s.originalImageBase64 = none ∨ s.apiKeySet = false)) ∧
    (s.status = GenerationStatus.generating → s.originalImageBase64 ≠ none →
      s.apiKeySet = true → (handleGenerate s outcome).2 = 1) := by
  constructor
  · constructor
    · intro h
      by_contra hg
      push_neg at hg
      unfold handleGenerate at h
      rw [generateStart_guard_pos hg.1 (by simpa using hg.2)] at h
      simp at h
    · intro h
      unfold handleGenerate
      rw [generateStart_guard_neg h]
      simp
  · intro _ h1 h2
    unfold handleGenerate
    rw [generateStart_guard_pos h1 h2]
    simp

/-- Witness for C1's amended theorem at a concrete generating session. -/
theorem handleGenerate_guard_witness :
    (handleGenerate
        (generateStart (handleImageUpload { initSession with apiKeySet := true }
          "u" (Except.ok "B"))).1
        (Except.error "net down")).2 = 1 :=
  (handleGenerate_guard _ _).2 rfl (by simp [handleImageUpload, initSession,
    generateStart]) rfl

/-- C2 counterexample: after a successful upload encoding `"B1"`, a
second upload whose encode fails reports an error, yet the session keeps
the first upload's encoding alongside the new original image — the stale
encoding is not invalidated and remains usable by `generate()`. -/
theorem upload_stale_encoding_cex :
    (handleImageUpload (handleImageUpload initSession "u1" (Except.ok "B1"))
        "u2" (Except.error ())).originalImage = some "u2" ∧
    (handleImageUpload (handleImageUpload initSession "u1" (Except.ok "B1"))
        "u2" (Except.error ())).originalImageBase64 = some "B1" ∧
    (handleImageUpload (handleImageUpload initSession "u1" (Except.ok "B1"))
        "u2" (Except.error ())).errorMsg ≠ none := by
  refine ⟨rfl, rfl, by simp [handleImageUpload]⟩

/-- C2 (amended): `upload(file)` stores the new original image and
clears the generated image and the error; when the encode succeeds both
the original and its fresh encoding are set; when the encode fails the
failure is reported as an error, but the encoded form of the previous
upload is left in place rather than invalidated, so a subsequent
`generate()` can still use the stale encoding. -/
theorem handleImageUpload_spec (s : Session) (url b64 : String) (e : Unit) :
    (handleImageUpload s url (Except.ok b64)).originalImage = some url ∧
    (handleImageUpload s url (Except.ok b64)).originalImageBase64 = some b64 ∧
    (handleImageUpload s url (Except.ok b64)).errorMsg = none ∧
    (handleImageUpload s url (Except.error e)).originalImage = some url ∧
    (handleImageUpload s url (Except.error e)).originalImageBase64 =
      s.originalImageBase64 ∧
    (handleImageUpload s url (Except.error e)).errorMsg =
      some "Failed to process image. Please try another one." := by
  simp [handleImageUpload]

/-- The credential marker is never found inside the empty message. -/
theorem jsIncludes_empty_keyMarker : jsIncludes "" keyMarker = false := by
  decide

/-- C5: when the adapter fails with a message containing the
credential-missing marker, the session moves to status `error`, the
credential flag is demoted to false, and the stored error message tells
the user to select their key again. -/
theorem handleGenerate_key_demotion (s : Session) (msg : String)
    (h1 : s.originalImageBase64 ≠ none) (h2 : s.apiKeySet = true)
    (h3 : jsIncludes msg keyMarker = true) :
    (handleGenerate s (Except.error msg)).1.status = GenerationStatus.error ∧
    (handleGenerate s (Except.error msg)).1.apiKeySet = false ∧
    (handleGenerate s (Except.error msg)).1.errorMsg =
      some "API Key issue. Please select your key again." := by
  have hne : msg ≠ "" := by
    intro h
    rw [h, jsIncludes_empty_keyMarker] at h3
    exact Bool.false_ne_true h3
  unfold handleGenerate
  rw [generateStart_guard_pos h1 h2]
  simp [generateExpandedImage, generateResolve, hne, h3]

/-- C3 counterexample: one upload whose encode fails, starting from the
initial state, reaches a session whose error message is non-null while
its status is `idle`, not `error` — refuting the claimed invariant. -/
theorem invariant_error_cex :
    ReachableSession (handleImageUpload initSession "u" (Except.error ())) ∧
    (handleImageUpload initSession "u" (Except.error ())).errorMsg ≠ none ∧
    (handleImageUpload initSession "u" (Except.error ())).status ≠
      GenerationStatus.error := by
  refine ⟨ReachableSession.step ReachableSession.init
    (SessionStep.upload _ _ _), ?_, ?_⟩ <;> simp [handleImageUpload, initSession]

/-- C3 (amended): in every reachable session state the generated image
is non-null only when the status is not `idle` (it can accompany
`generating` and `error` after a regeneration from success, not only
`success`); no such restriction holds for the error message, which can
be non-null under any status because `reset()` does not clear it and a
failed upload sets it without changing the status. -/
theorem reachable_generated_not_idle (s : Session) (h : ReachableSession s) :
    s.generatedImage ≠ none → s.status ≠ GenerationStatus.idle := by
  induction h with
  | init => simp [initSession]
  | step h1 h2 ih =>
      cases h2 with
      | upload url enc => cases enc <;> simp [handleImageUpload]
      | selectRatio r => simpa using ih
      | keyCheck b => simpa using ih
      | genStart =>
          unfold generateStart
          split
          · simpa using ih
          · simp
      | genResolve r =>
          cases r with
          | ok img => simp [generateResolve]
          | error msg =>
              unfold generateResolve
              split
              · simp
              · split <;> split <;> simp
      | reset => simp [handleClear]
      | discard => simp

/-- Witness for C3's amended theorem at a reachable success state whose
generated image is set. -/
theorem reachable_generated_not_idle_witness :
    (generateResolve
        (generateStart (handleImageUpload { initSession with apiKeySet := true }
          "u" (Except.ok "B"))).1
        (Except.ok "I")).status ≠ GenerationStatus.idle :=
  reachable_generated_not_idle _
    (ReachableSession.step
      (ReachableSession.step
        (ReachableSession.step
          (ReachableSession.step ReachableSession.init
            (SessionStep.keyCheck initSession true))
          (SessionStep.upload _ "u" (Except.ok "B")))
        (SessionStep.genStart _))
      (SessionStep.genResolve _ (Except.ok "I")))
    (by simp [generateResolve, generateStart, handleImageUpload, initSession])

/-- Scanning fails with the fixed message exactly when no part carries
inline data. -/
theorem extractImage_error_iff (l : List ContentPart) :
    extractImage l = Except.error "No image data found in response" ↔
      ∀ p ∈ l, p.inlineData = none := by
  induction l with
  | nil => simp [extractImage]
  | cons p rest ih =>
      cases hp : p.inlineData with
      | some d => simp [extractImage, hp]
      | none => simp [extractImage, hp, ih]

/-- Scanning returns the data URI of the first part carrying inline
data. -/
theorem extractImage_first (pre : List ContentPart) (p : ContentPart)
    (rest : List ContentPart) (d : String)
    (hpre : ∀ q ∈ pre, q.inlineData = none) (hp : p.inlineData = some d) :
    extractImage (pre ++ p :: rest) =
      Except.ok ("data:image/png;base64," ++ d) := by
  induction pre with
  | nil => simp [extractImage, hp]
  | cons q qre ih =>
      have hq : q.inlineData = none := hpre q (by simp)
      simp only [List.cons_append, extractImage, hq]
      exact ih fun x hx => hpre x (by simp [hx])

/-- The credential marker does not occur in the no-image message. -/
theorem keyMarker_not_in_noImageMsg :
    jsIncludes "No image data found in response" keyMarker = false := by
  decide

/-- C6: the adapter scans the response parts in order and returns the
first inline image re-encoded as a data URI; it fails if and only if no
part carries inline data, in which case the state machine sets status
`error` with the message `"No image data found in response"`. -/
theorem generate_no_image_spec (s : Session) (resp : GenResponse)
    (h1 : s.originalImageBase64 ≠ none) (h2 : s.apiKeySet = true) :
    (extractImage (responseParts resp) =
        Except.error "No image data found in response" ↔
      ∀ p ∈ responseParts resp, p.inlineData = none) ∧
    (∀ pre p rest d, responseParts resp = pre ++ p :: rest →
      (∀ q ∈ pre, q.inlineData = none) → p.inlineData = some d →
      extractImage (responseParts resp) =
        Except.ok ("data:image/png;base64," ++ d)) ∧
    ((∀ p ∈ responseParts resp, p.inlineData = none) →
      (handleGenerate s (Except.ok resp)).1.status = GenerationStatus.error ∧
      (handleGenerate s (Except.ok resp)).1.errorMsg =
        some "No image data found in response") := by
  refine ⟨extractImage_error_iff _, ?_, ?_⟩
  · intro pre p rest d hsplit hpre hp
    rw [hsplit]
    exact extractImage_first pre p rest d hpre hp
  · intro hall
    unfold handleGenerate
    rw [generateStart_guard_pos h1 h2]
    simp only [generateExpandedImage, (extractImage_error_iff _).mpr hall]
    simp [generateResolve, keyMarker_not_in_noImageMsg]

/-- Witness for C6 at a response whose single part has no inline data. -/
theorem generate_no_image_spec_witness :
    (handleGenerate
        { initSession with
          apiKeySet := true
          originalImageBase64 := some "B" }
        (Except.ok (GenResponse.mk [Candidate.mk (Content.mk
          [ContentPart.mk none])]))).1.errorMsg =
      some "No image data found in response" :=
  ((generate_no_image_spec _ _ (by simp) rfl).2.2 (by decide)).2

/-- The alphabet is its own left inverse on sextet values. -/
theorem b64Val_b64Char_fin : ∀ n : Fin 64, b64Val (b64Char n.val) = n.val := by
  decide

/-- `b64Val` recovers the sextet encoded by `b64Char`. -/
theorem b64Val_b64Char {n : Nat} (h : n < 64) : b64Val (b64Char n) = n :=
  b64Val_b64Char_fin ⟨n, h⟩

/-- No base64 digit is the padding character. -/
theorem b64Char_ne_pad_fin : ∀ n : Fin 64, b64Char n.val ≠ '=' := by
  decide

/-- A sextet's digit is never `=`. -/
theorem b64Char_ne_pad {n : Nat} (h : n < 64) : b64Char n ≠ '=' :=
  b64Char_ne_pad_fin ⟨n, h⟩

/-- No base64 digit is a comma. -/
theorem b64Char_ne_comma_fin : ∀ n : Fin 64, b64Char n.val ≠ ',' := by
  decide

/-- A sextet's digit is never a comma. -/
theorem b64Char_ne_comma {n : Nat} (h : n < 64) : b64Char n ≠ ',' :=
  b64Char_ne_comma_fin ⟨n, h⟩

/-- Decoding inverts encoding on byte lists. -/
theorem b64_roundtrip : ∀ l : List Nat, (∀ x ∈ l, x < 256) →
    b64Decode (b64Encode l) = l
  | [], _ => rfl
  | [a], h => by
      have ha : a < 256 := h a (by simp)
      have h1 : a / 4 < 64 := by omega
      have h2 : a % 4 * 16 < 64 := by omega
      simp only [b64Encode, b64Decode, if_pos]
      rw [b64Val_b64Char h1, b64Val_b64Char h2]
      have e1 : a / 4 * 4 + a % 4 * 16 / 16 = a := by omega
      rw [e1]
  | [a, b], h => by
      have ha : a < 256 := h a (by simp)
      have hb : b < 256 := h b (by simp)
      have h1 : a / 4 < 64 := by omega
      have h2 : a % 4 * 16 + b / 16 < 64 := by omega
      have h3 : b % 16 * 4 < 64 := by omega
      simp only [b64Encode, b64Decode]
      rw [if_neg (b64Char_ne_pad h3)]
      simp only [if_true]
      rw [b64Val_b64Char h1, b64Val_b64Char h2, b64Val_b64Char h3]
      have e1 : a / 4 * 4 + (a % 4 * 16 + b / 16) / 16 = a := by omega
      have e2 : (a % 4 * 16 + b / 16) % 16 * 16 + b % 16 * 4 / 4 = b := by omega
      rw [e1, e2]
  | a :: b :: c :: rest, h => by
      have ha : a < 256 := h a (by simp)
      have hb : b < 256 := h b (by simp)
      have hc : c < 256 := h c (by simp)
      have h1 : a / 4 < 64 := by omega
      have h2 : a % 4 * 16 + b / 16 < 64 := by omega
      have h3 : b % 16 * 4 + c / 64 < 64 := by omega
      have h4 : c % 64 < 64 := by omega
      have ih := b64_roundtrip rest fun x hx => h x (by simp [hx])
      simp only [b64Encode, b64Decode]
      rw [if_neg (b64Char_ne_pad h3), if_neg (b64Char_ne_pad h4)]
      rw [b64Val_b64Char h1, b64Val_b64Char h2, b64Val_b64Char h3,
        b64Val_b64Char h4, ih]
      have e1 : a / 4 * 4 + (a % 4 * 16 + b / 16) / 16 = a := by omega
      have e2 : (a % 4 * 16 + b / 16) % 16 * 16 + (b % 16 * 4 + c / 64) / 4 = b := by
        omega
      have e3 : (b % 16 * 4 + c / 64) % 4 * 64 + c % 64 = c := by omega
      rw [e1, e2, e3]

/-- Base64 output never contains a comma. -/
theorem b64Encode_no_comma : ∀ l : List Nat, (∀ x ∈ l, x < 256) →
    ',' ∉ b64Encode l
  | [], _ => by simp [b64Encode]
  | [a], h => by
      have ha : a < 256 := h a (by simp)
      intro hmem
      simp only [b64Encode, List.mem_cons, List.not_mem_nil, or_false] at hmem
      rcases hmem with hx | hx | hx | hx
      · exact b64Char_ne_comma (by omega) hx.symm
      · exact b64Char_ne_comma (by omega) hx.symm
      · simp at hx
      · simp at hx
  | [a, b], h => by
      have ha : a < 256 := h a (by simp)
      have hb : b < 256 := h b (by simp)
      intro hmem
      simp only [b64Encode, List.mem_cons, List.not_mem_nil, or_false] at hmem
      rcases hmem with hx | hx | hx | hx
      · exact b64Char_ne_comma (by omega) hx.symm
      · exact b64Char_ne_comma (by omega) hx.symm
      · exact b64Char_ne_comma (by omega) hx.symm
      · simp at hx
  | a :: b :: c :: rest, h => by
      have ha : a < 256 := h a (by simp)
      have hb : b < 256 := h b (by simp)
      have hc : c < 256 := h c (by simp)
      have ih := b64Encode_no_comma rest fun x hx => h x (by simp [hx])
      intro hmem
      simp only [b64Encode, List.mem_cons] at hmem
      rcases hmem with hx | hx | hx | hx | hx
      · exact b64Char_ne_comma (by omega) hx.symm
      · exact b64Char_ne_comma (by omega) hx.symm
      · exact b64Char_ne_comma (by omega) hx.symm
      · exact b64Char_ne_comma (by omega) hx.symm
      · exact ih hx

/-- Splitting a separator-free list yields that list as the only
segment. -/
theorem jsSplit_no_sep (c : Char) (l : List Char) (h : c ∉ l) :
    jsSplit c l = [l] := by
  induction l with
  | nil => rfl
  | cons x xs ih =>
      simp only [List.mem_cons, not_or] at h
      have hx : ¬x = c := fun he => h.1 he.symm
      simp only [jsSplit, if_neg hx]
      rw [ih h.2]

/-- Splitting at the first separator detaches the separator-free head
segment. -/
theorem jsSplit_sep_append (c : Char) (l1 l2 : List Char) (h : c ∉ l1) :
    jsSplit c (l1 ++ c :: l2) = l1 :: jsSplit c l2 := by
  induction l1 with
  | nil => simp [jsSplit]
  | cons x xs ih =>
      simp only [List.mem_cons, not_or] at h
      have hx : ¬x = c := fun he => h.1 he.symm
      simp only [List.cons_append, jsSplit, if_neg hx, List.append_eq]
      rw [ih h.2]

/-- C9: for every mime type without a comma and all valid image bytes,
base64-decoding the codec's output (`blobToBase64`, which strips the
data-URI transport header up to the first comma) yields exactly the
original bytes. -/
theorem blobToBase64_roundtrip (mime : List Char) (bytes : List Nat)
    (hm : ',' ∉ mime) (hb : ∀ x ∈ bytes, x < 256) :
    b64Decode (blobToBase64 mime bytes) = bytes := by
  have hhead : ',' ∉ "data:".toList ++ mime ++ ";base64".toList := by
    intro hmem
    rcases List.mem_append.mp hmem with hmem | hmem
    · rcases List.mem_append.mp hmem with hmem | hmem
      · exact absurd hmem (by decide)
      · exact hm hmem
    · exact absurd hmem (by decide)
  have heq : readAsDataURL mime bytes =
      ("data:".toList ++ mime ++ ";base64".toList) ++ ',' :: b64Encode bytes := by
    unfold readAsDataURL
    have hsb : (";base64,".toList : List Char) = ";base64".toList ++ [','] := rfl
    rw [hsb]
    simp [List.append_assoc]
  unfold blobToBase64
  rw [heq, jsSplit_sep_append _ _ _ hhead,
    jsSplit_no_sep _ _ (b64Encode_no_comma bytes hb)]
  simp only [List.getD, List.getElem?_cons_succ, List.getElem?_cons_zero,
    Option.getD_some]
  exact b64_roundtrip bytes hb

/-- Witness for C9 on the PNG magic bytes with mime `image/png`. -/
theorem blobToBase64_roundtrip_witness :
    b64Decode (blobToBase64 "image/png".toList [137, 80, 78, 71]) =
      [137, 80, 78, 71] :=
  blobToBase64_roundtrip _ _ (by decide) (by decide)

/-- Witness for C5 with the marker text itself as the failure message. -/
theorem handleGenerate_key_demotion_witness :
    (handleGenerate
        { initSession with
          apiKeySet := true
          originalImageBase64 := some "B" }
        (Except.error "Requested entity was not found")).1.apiKeySet = false :=
  (handleGenerate_key_demotion _ _ (by simp) rfl (by decide)).2.1
